import Mathlib

/-!
Shallow embedding of the sensor-monitoring core of
`src/T01_4Pilares_Sensores.py`.

Numeric readings and thresholds are modelled as rationals, Python lists as
Lean lists, and the console / channel side effects of `enviar` as explicit
traces of (channel, message) pairs returned by the operations.
-/

namespace Sensores

/-- Base sensor state, from the `Sensor` dataclass: an id, the window size
`ventana` (a Python int, so modelled as an integer to cover unvalidated
non-positive values), the calibration offset `_calibracion`, and the rolling
buffer `_buffer` of already-calibrated readings, oldest first. -/
structure Sensor where
  id : String
  ventana : ℤ
  calibracion : ℚ
  buffer : List ℚ
deriving Repr, DecidableEq

/-- Operation `Sensor.leer`: adds the reading with calibration applied and keeps the
rolling window, from lines 27-32 of the source: append `valor + _calibracion`,
then, when the buffer length now exceeds `ventana`, pop the oldest entry
(Python `pop(0)`, the head of the list). -/
def Sensor.leer (s : Sensor) (valor : ℚ) : Sensor :=
  let v := valor + s.calibracion
  let b := s.buffer ++ [v]
  if (b.length : ℤ) > s.ventana then { s with buffer := b.tail }
  else { s with buffer := b }

/-- Operation `Sensor.promedio`: the mean of the buffer, `0.0` for an empty buffer
(lines 33-35 of the source). -/
def Sensor.promedio (s : Sensor) : ℚ :=
  if s.buffer = [] then 0 else s.buffer.sum / s.buffer.length

/-- Feed a whole list of raw readings to a sensor, one `leer` call each, in
order. This models the external polling loop driving the sensor. -/
def Sensor.leerTodos (s : Sensor) (valores : List ℚ) : Sensor :=
  valores.foldl Sensor.leer s

/-- Variant `SensorTemperatura` (lines 38-43): a sensor plus the threshold `umbral`. -/
structure SensorTemperatura extends Sensor where
  umbral : ℚ
deriving Repr, DecidableEq

/-- Predicate `SensorTemperatura.en_alerta`: `self.promedio >= self.umbral`. -/
def SensorTemperatura.en_alerta (s : SensorTemperatura) : Bool :=
  decide (s.toSensor.promedio ≥ s.umbral)

/-- Variant `SensorVibracion` (lines 44-49): a sensor plus the threshold `rms_umbral`. -/
structure SensorVibracion extends Sensor where
  rms_umbral : ℚ
deriving Repr, DecidableEq

/-- Predicate `SensorVibracion.en_alerta`: `abs(self.promedio) >= self.rms_umbral`, the
absolute value of the mean of the window (the source comment itself calls this
a toy stand-in for RMS). -/
def SensorVibracion.en_alerta (s : SensorVibracion) : Bool :=
  decide (|s.toSensor.promedio| ≥ s.rms_umbral)

/-- Variant `SensorSismo` (lines 63-68): a sensor plus the threshold `magnitud_umbral`. -/
structure SensorSismo extends Sensor where
  magnitud_umbral : ℚ
deriving Repr, DecidableEq

/-- Predicate `SensorSismo.en_alerta`: `self.promedio >= self.magnitud_umbral`. -/
def SensorSismo.en_alerta (s : SensorSismo) : Bool :=
  decide (s.toSensor.promedio ≥ s.magnitud_umbral)

/-- Variant `SensorVolcan` (lines 70-77): a sensor plus the thresholds
`temperatura_umbral` and `gas_umbral`. -/
structure SensorVolcan extends Sensor where
  temperatura_umbral : ℚ
  gas_umbral : ℚ
deriving Repr, DecidableEq

/-- Predicate `SensorVolcan.en_alerta`:
`self.promedio >= self.temperatura_umbral or self.promedio >= self.gas_umbral`,
both comparisons against the one `promedio` value. -/
def SensorVolcan.en_alerta (s : SensorVolcan) : Bool :=
  decide (s.toSensor.promedio ≥ s.temperatura_umbral) ||
    decide (s.toSensor.promedio ≥ s.gas_umbral)

/-- A concrete sensor of any of the four variants; this is how the
heterogeneous `List[Sensor]` of `GestorAlertas` and `PanelEmergencias` is
modelled, with `en_alerta` dispatching polymorphically. -/
inductive SensorBox where
  | temperatura (s : SensorTemperatura)
  | vibracion (s : SensorVibracion)
  | sismo (s : SensorSismo)
  | volcan (s : SensorVolcan)
deriving Repr, DecidableEq

/-- The base `Sensor` state of a boxed sensor. -/
def SensorBox.toSensor : SensorBox → Sensor
  | .temperatura s => s.toSensor
  | .vibracion s => s.toSensor
  | .sismo s => s.toSensor
  | .volcan s => s.toSensor

/-- Polymorphic dispatch of `en_alerta` over the four variants. -/
def SensorBox.en_alerta : SensorBox → Bool
  | .temperatura s => s.en_alerta
  | .vibracion s => s.en_alerta
  | .sismo s => s.en_alerta
  | .volcan s => s.en_alerta

/-- The `id` of a boxed sensor, inherited from the base `Sensor`. -/
def SensorBox.id (s : SensorBox) : String := s.toSensor.id

/-- The `promedio` of a boxed sensor, inherited from the base `Sensor`. -/
def SensorBox.promedio (s : SensorBox) : ℚ := s.toSensor.promedio

/-- Operation `leer` on a boxed sensor: the inherited `Sensor.leer` updates the base
state; thresholds are untouched (they are immutable after construction). -/
def SensorBox.leer (sb : SensorBox) (valor : ℚ) : SensorBox :=
  match sb with
  | .temperatura s => .temperatura { s with toSensor := s.toSensor.leer valor }
  | .vibracion s => .vibracion { s with toSensor := s.toSensor.leer valor }
  | .sismo s => .sismo { s with toSensor := s.toSensor.leer valor }
  | .volcan s => .volcan { s with toSensor := s.toSensor.leer valor }

/-- Feed a list of raw readings to a boxed sensor, in order. -/
def SensorBox.leerTodos (sb : SensorBox) (valores : List ℚ) : SensorBox :=
  valores.foldl SensorBox.leer sb

/-- A notification channel: `NotificadorEmail`, `NotificadorWebhook` or
`NotificadorSMS`, each holding only its fixed destination. -/
inductive Notificador where
  | email (destinatario : String)
  | webhook (url : String)
  | sms (telefono : String)
deriving Repr, DecidableEq

/-- One observed `enviar` call: which channel received which message. The
Python `enviar` methods only print; the trace of calls is the observable
behavior the spec talks about. -/
structure Envio where
  canal : Notificador
  mensaje : String
deriving Repr, DecidableEq

/-! ### Two-decimal formatting, modelling the Python format spec `.2f` -/

/-- Round a rational to the nearest integer, ties to even, as float formatting
does on the exact value. -/
def roundHalfEven (q : ℚ) : ℤ :=
  let f : ℤ := ⌊q⌋
  let r : ℚ := q - f
  if r < 1/2 then f
  else if 1/2 < r then f + 1
  else if f % 2 = 0 then f else f + 1

/-- The decimal digit character for `n % 10`. -/
def digChar (n : ℕ) : Char := Char.ofNat (48 + n % 10)

/-- Decimal digits of `n`, most significant first, with explicit fuel. -/
def natDigitsAux : ℕ → ℕ → List Char
  | 0, _ => []
  | fuel+1, n => if n < 10 then [digChar n] else natDigitsAux fuel (n / 10) ++ [digChar n]

/-- Decimal string of a natural number. -/
def natStr (n : ℕ) : String := ⟨natDigitsAux (n+1) n⟩

/-- Format a rational with exactly two decimal places, as Python renders
`f"{x:.2f}"`: round to hundredths (half to even), then print sign, integer
part, a dot and two fractional digits. -/
def fmt2 (q : ℚ) : String :=
  let n : ℤ := roundHalfEven (q * 100)
  let a : ℕ := n.natAbs
  let sign : String := if n < 0 ∨ (n = 0 ∧ q < 0) then "-" else ""
  sign ++ natStr (a / 100) ++ "." ++ ⟨[digChar (a / 10 % 10), digChar (a % 10)]⟩

/-! ### GestorAlertas -/

/-- The alert message of line 57:
`f"ALERTA: Sensor {s.id} en umbral (avg={s.promedio:.2f})"`. -/
def mensajeAlerta (s : SensorBox) : String :=
  "ALERTA: Sensor " ++ s.id ++ " en umbral (avg=" ++ fmt2 s.promedio ++ ")"

/-- The inner loop of lines 58-59: one `enviar` call per channel, in
registration order. -/
def enviarATodos : List Notificador → String → List Envio
  | [], _ => []
  | n :: rest, msg => ⟨n, msg⟩ :: enviarATodos rest msg

/-- State of `GestorAlertas` (lines 50-59): the ordered sensors and the ordered
notification channels handed to the constructor. -/
structure GestorAlertas where
  sensores : List SensorBox
  notificadores : List Notificador
deriving Repr, DecidableEq

/-- The outer loop of lines 55-59: visit the sensors in order; for an alerting
sensor build its message and deliver it to every channel; otherwise do
nothing. -/
def evaluarLoop : List SensorBox → List Notificador → List Envio
  | [], _ => []
  | s :: rest, ns =>
    (if s.en_alerta then enviarATodos ns (mensajeAlerta s) else []) ++ evaluarLoop rest ns

/-- Operation `GestorAlertas.evaluar_y_notificar` (lines 54-59), returning the trace of
`enviar` calls it performs. -/
def GestorAlertas.evaluar_y_notificar (g : GestorAlertas) : List Envio :=
  evaluarLoop g.sensores g.notificadores

/-! ### PanelEmergencias -/

/-- State of `PanelEmergencias` (lines 80-91): a reference to a `GestorAlertas`, one
channel of its own, and the indicator sensors. -/
structure PanelEmergencias where
  gestor : GestorAlertas
  notificador : Notificador
  indicadores : List SensorBox
deriving Repr, DecidableEq

/-- The loop of lines 87-91 over the given indicator list, sending through
the given channel: compute `estado` from `en_alerta`, print the panel line
(console output, not a channel send, hence not in the trace), and when
alerting send `f"ALERTA: {s.id} en estado {estado}"` through the channel. -/
def actualizarLoop (canal : Notificador) : List SensorBox → List Envio
  | [] => []
  | s :: rest =>
    let estado : String := if s.en_alerta then "ALERTA" else "NORMAL"
    (if s.en_alerta then [⟨canal, "ALERTA: " ++ s.id ++ " en estado " ++ estado⟩] else [])
      ++ actualizarLoop canal rest

/-- Operation `PanelEmergencias.actualizar_panel` (lines 86-91), returning the trace of
`enviar` calls it performs; they all go through `self.notificador`, the only
channel the method ever touches. -/
def PanelEmergencias.actualizar_panel (p : PanelEmergencias) : List Envio :=
  actualizarLoop p.notificador p.indicadores

/-! ### HistorialEventos -/

/-- Record `RegistroEvento` (lines 101-105): sensor, message and the timestamp
captured at creation. The wall clock `datetime.now()` is modelled by passing
the current instant to `agregar_evento` explicitly. -/
structure RegistroEvento where
  sensor : SensorBox
  mensaje : String
  timestamp : ℕ
deriving Repr, DecidableEq

/-- Log `HistorialEventos` (lines 107-112): the ordered list of records. -/
structure HistorialEventos where
  registros : List RegistroEvento
deriving Repr, DecidableEq

/-- Operation `HistorialEventos.agregar_evento` (lines 111-112): append one new record
built from the given sensor and message, stamped with the current instant. -/
def HistorialEventos.agregar_evento (h : HistorialEventos) (sensor : SensorBox)
    (mensaje : String) (now : ℕ) : HistorialEventos :=
  { registros := h.registros ++ [{ sensor := sensor, mensaje := mensaje, timestamp := now }] }

/-- Perform a sequence of `agregar_evento` calls, one per listed
(sensor, message, instant) triple, in order. -/
def agregarTodos (h : HistorialEventos) (evs : List (SensorBox × String × ℕ)) :
    HistorialEventos :=
  evs.foldl (fun acc e => acc.agregar_evento e.1 e.2.1 e.2.2) h

/-- Spec-side characterization used for the degenerate-window claim: each
variant of `en_alerta` with the average replaced by the literal `0`, i.e.
comparing `0` against the thresholds of the variant. -/
def alertaConPromedioCero : SensorBox → Bool
  | .temperatura s => decide ((0 : ℚ) ≥ s.umbral)
  | .vibracion s => decide (|(0 : ℚ)| ≥ s.rms_umbral)
  | .sismo s => decide ((0 : ℚ) ≥ s.magnitud_umbral)
  | .volcan s => decide ((0 : ℚ) ≥ s.temperatura_umbral) || decide ((0 : ℚ) ≥ s.gas_umbral)

/-! ## Helper lemmas -/

/-- Unfolded description of the buffer after one `leer` call: the calibrated
value is appended and, when the window is exceeded, the head is popped. -/
theorem Sensor.leer_buffer (s : Sensor) (v : ℚ) :
    (s.leer v).buffer =
      if ((s.buffer ++ [v + s.calibracion]).length : ℤ) > s.ventana
      then (s.buffer ++ [v + s.calibracion]).tail
      else s.buffer ++ [v + s.calibracion] := by
  simp only [Sensor.leer]
  split <;> rfl

/-- Operation `leer` never changes the window size. -/
theorem Sensor.leer_ventana (s : Sensor) (v : ℚ) : (s.leer v).ventana = s.ventana := by
  simp only [Sensor.leer]
  split <;> rfl

/-- Operation `leer` never changes the calibration offset. -/
theorem Sensor.leer_calibracion (s : Sensor) (v : ℚ) :
    (s.leer v).calibracion = s.calibracion := by
  simp only [Sensor.leer]
  split <;> rfl

/-- One `leer` call preserves the window bound on the buffer length. -/
theorem Sensor.leer_length_le (s : Sensor) (v : ℚ)
    (h : (s.buffer.length : ℤ) ≤ s.ventana) :
    ((s.leer v).buffer.length : ℤ) ≤ s.ventana := by
  rw [Sensor.leer_buffer]
  split
  · simp only [List.length_tail, List.length_append, List.length_singleton]
    push_cast
    omega
  · rename_i hns
    simp only [List.length_append, List.length_singleton] at hns ⊢
    push_cast at hns ⊢
    omega

/-- Folding `leer` over a reading list keeps the window bound. -/
theorem Sensor.leerTodos_length_le (vs : List ℚ) (s : Sensor)
    (h : (s.buffer.length : ℤ) ≤ s.ventana) :
    ((s.leerTodos vs).buffer.length : ℤ) ≤ s.ventana := by
  induction vs generalizing s with
  | nil => exact h
  | cons v vs ih =>
    have h1 : ((s.leer v).buffer.length : ℤ) ≤ (s.leer v).ventana := by
      rw [Sensor.leer_ventana]; exact Sensor.leer_length_le s v h
    have h2 := ih (s.leer v) h1
    rw [Sensor.leer_ventana] at h2
    simpa [Sensor.leerTodos, List.foldl_cons] using h2

end Sensores

namespace Sensores

/-! ## Claim theorems -/

/-- C1: for every sensor with positive `ventana`, after any sequence of
`leer` calls from an empty buffer the buffer length stays between `0` and
`ventana`, and whenever an insertion would exceed `ventana` the popped entry
is the oldest one (the head of the buffer). -/
theorem claim_C1_window_invariant (s : Sensor) (vs : List ℚ)
    (hpos : 0 < s.ventana) (hbuf : s.buffer = []) :
    0 ≤ (s.leerTodos vs).buffer.length ∧
    ((s.leerTodos vs).buffer.length : ℤ) ≤ s.ventana ∧
    ∀ (t : Sensor) (v : ℚ),
      ((t.buffer ++ [v + t.calibracion]).length : ℤ) > t.ventana →
      (t.leer v).buffer = (t.buffer ++ [v + t.calibracion]).tail := by
  refine ⟨Nat.zero_le _, ?_, ?_⟩
  · exact Sensor.leerTodos_length_le vs s (by rw [hbuf]; simpa using le_of_lt hpos)
  · intro t v hgt
    rw [Sensor.leer_buffer, if_pos hgt]

/-- C1 witness at a concrete sensor: window 3, readings [1, 2, 3, 4]. -/
theorem claim_C1_window_invariant_witness :
    (((Sensor.mk "w" 3 0 []).leerTodos [1, 2, 3, 4]).buffer.length : ℤ) ≤ 3 :=
  (claim_C1_window_invariant ⟨"w", 3, 0, []⟩ [1, 2, 3, 4] (by norm_num) rfl).2.1

/-- C2: `promedio` is `0` on an empty buffer and the arithmetic mean of the
buffer otherwise, and feeding [1, 2, 3, 4] to a fresh sensor with window 3
and no calibration gives average 3 (the mean of 2, 3, 4). -/
theorem claim_C2_promedio (s : Sensor) :
    (s.buffer = [] → s.promedio = 0) ∧
    (s.buffer ≠ [] → s.promedio = s.buffer.sum / s.buffer.length) ∧
    ((Sensor.mk "x" 3 0 []).leerTodos [1, 2, 3, 4]).promedio = 3 := by
  refine ⟨fun h => by simp [Sensor.promedio, h], fun h => by simp [Sensor.promedio, h], ?_⟩
  simp [Sensor.leerTodos, Sensor.leer, Sensor.promedio]
  norm_num

/-- C2 witness: a sensor with an empty buffer has average 0. -/
theorem claim_C2_promedio_witness : (Sensor.mk "x" 3 0 []).promedio = 0 :=
  (claim_C2_promedio ⟨"x", 3, 0, []⟩).1 rfl

/-- C4: a volcanic sensor alerts exactly when its single average reaches the
temperature threshold or the gas threshold, and an average of 910 against
thresholds 900 and 1000 alerts. -/
theorem claim_C4_volcan (s : SensorVolcan) :
    (s.en_alerta = true ↔
      s.toSensor.promedio ≥ s.temperatura_umbral ∨ s.toSensor.promedio ≥ s.gas_umbral) ∧
    (SensorVolcan.mk ⟨"v", 5, 0, [910]⟩ 900 1000).en_alerta = true := by
  constructor
  · simp [SensorVolcan.en_alerta]
  · simp [SensorVolcan.en_alerta, Sensor.promedio]
    norm_num

/-- C4 witness: the volcanic boundary example evaluated concretely. -/
theorem claim_C4_volcan_witness :
    (SensorVolcan.mk ⟨"v", 5, 0, [910]⟩ 900 1000).en_alerta = true :=
  (claim_C4_volcan ⟨⟨"v", 5, 0, [910]⟩, 900, 1000⟩).2

/-- C6: a temperature sensor alerts exactly when its average reaches the
threshold, inclusively: threshold 80 with average exactly 80 alerts. -/
theorem claim_C6_temperatura (s : SensorTemperatura) :
    (s.en_alerta = true ↔ s.toSensor.promedio ≥ s.umbral) ∧
    (SensorTemperatura.mk ⟨"t", 5, 0, [80]⟩ 80).en_alerta = true := by
  constructor
  · simp [SensorTemperatura.en_alerta]
  · simp [SensorTemperatura.en_alerta, Sensor.promedio]

/-- C6 witness: the inclusive boundary example evaluated concretely. -/
theorem claim_C6_temperatura_witness :
    (SensorTemperatura.mk ⟨"t", 5, 0, [80]⟩ 80).en_alerta = true :=
  (claim_C6_temperatura ⟨⟨"t", 5, 0, [80]⟩, 80⟩).2

/-- C8: a vibration sensor alerts exactly when the absolute value of the mean
of the window reaches `rms_umbral`; with buffer [3, -3] the mean is 0, so no
alert fires at threshold 5/2 even though the true root mean square of those
readings is 3. -/
theorem claim_C8_vibracion (s : SensorVibracion) :
    (s.en_alerta = true ↔ |s.toSensor.promedio| ≥ s.rms_umbral) ∧
    (SensorVibracion.mk ⟨"vib", 5, 0, [3, -3]⟩ (5/2)).en_alerta = false := by
  constructor
  · simp [SensorVibracion.en_alerta]
  · simp [SensorVibracion.en_alerta, Sensor.promedio]

/-- C8 witness: the zero-mean window evaluated concretely. -/
theorem claim_C8_vibracion_witness :
    (SensorVibracion.mk ⟨"vib", 5, 0, [3, -3]⟩ (5/2)).en_alerta = false :=
  (claim_C8_vibracion ⟨⟨"vib", 5, 0, [3, -3]⟩, 5/2⟩).2

/-- C7: `leer` stores exactly `valor + calibracion`: with room in the window
the new buffer is the old one with `valor + calibracion` appended; with a
positive window the newest entry is always `valor + calibracion`; and with
offset 1 a reading of 9 is stored as 10. -/
theorem claim_C7_calibracion (s : Sensor) (v : ℚ) :
    ((s.buffer.length : ℤ) + 1 ≤ s.ventana →
      (s.leer v).buffer = s.buffer ++ [v + s.calibracion]) ∧
    (0 < s.ventana → (s.leer v).buffer.getLast? = some (v + s.calibracion)) ∧
    ((Sensor.mk "c" 5 1 []).leer 9).buffer = [10] := by
  refine ⟨?_, ?_, ?_⟩
  · intro h
    rw [Sensor.leer_buffer, if_neg]
    simp only [List.length_append, List.length_singleton]
    push_cast
    omega
  · intro hpos
    rw [Sensor.leer_buffer]
    split
    · rename_i hgt
      match hb : s.buffer with
      | [] =>
        rw [hb] at hgt
        simp at hgt
        omega
      | b :: bs =>
        simp [List.getLast?_concat]
    · exact List.getLast?_concat _
  · simp [Sensor.leer]
    norm_num

/-- C7 witness: with calibration 1, reading 9 leaves 10 as the newest buffer
entry. -/
theorem claim_C7_calibracion_witness :
    ((Sensor.mk "c" 5 1 []).leer 9).buffer.getLast? = some 10 := by
  have h := (claim_C7_calibracion ⟨"c", 5, 1, []⟩ 9).2.1 (by norm_num)
  norm_num at h
  exact h

/-- The record list built by a sequence of `agregar_evento` calls: the old
records kept intact, followed by one new record per call, in call order. -/
theorem agregarTodos_registros (evs : List (SensorBox × String × ℕ)) :
    ∀ h : HistorialEventos, (agregarTodos h evs).registros =
      h.registros ++ evs.map fun e => RegistroEvento.mk e.1 e.2.1 e.2.2 := by
  induction evs with
  | nil => intro h; simp [agregarTodos]
  | cons e evs ih =>
    intro h
    have h1 : agregarTodos h (e :: evs) =
        agregarTodos (h.agregar_evento e.1 e.2.1 e.2.2) evs := by
      simp [agregarTodos]
    rw [h1, ih]
    simp [HistorialEventos.agregar_evento]

/-- C9: `agregar_evento` appends exactly one record holding the given sensor
and message and leaves the earlier records untouched; starting from an empty
history, N calls yield exactly the N records in insertion order. -/
theorem claim_C9_historial (h : HistorialEventos) (sb : SensorBox) (m : String) (now : ℕ) :
    (h.agregar_evento sb m now).registros = h.registros ++ [⟨sb, m, now⟩] ∧
    (∀ evs : List (SensorBox × String × ℕ),
      (agregarTodos ⟨[]⟩ evs).registros = evs.map fun e => ⟨e.1, e.2.1, e.2.2⟩) ∧
    (∀ evs : List (SensorBox × String × ℕ),
      (agregarTodos ⟨[]⟩ evs).registros.length = evs.length) := by
  refine ⟨rfl, fun evs => by simpa using agregarTodos_registros evs ⟨[]⟩, fun evs => ?_⟩
  have h2 := agregarTodos_registros evs (⟨[]⟩ : HistorialEventos)
  simp only [h2]
  simp

/-- C9 witness: one append on the empty history leaves exactly that record. -/
theorem claim_C9_historial_witness :
    ((HistorialEventos.mk []).agregar_evento
        (SensorBox.temperatura ⟨⟨"t", 5, 0, []⟩, 80⟩) "m" 0).registros =
      [⟨SensorBox.temperatura ⟨⟨"t", 5, 0, []⟩, 80⟩, "m", 0⟩] := by
  have h := (claim_C9_historial ⟨[]⟩ (SensorBox.temperatura ⟨⟨"t", 5, 0, []⟩, 80⟩) "m" 0).1
  simpa using h

/-- With a non-positive window, `leer` on an empty buffer evicts its own
fresh entry immediately, so the buffer stays empty through any reading
sequence. -/
theorem Sensor.leerTodos_buffer_empty_nonpos (vs : List ℚ) (s : Sensor)
    (hv : s.ventana ≤ 0) (hb : s.buffer = []) : (s.leerTodos vs).buffer = [] := by
  induction vs generalizing s with
  | nil => exact hb
  | cons v vs ih =>
    have hb2 : (s.leer v).buffer = [] := by
      rw [Sensor.leer_buffer, hb]
      have hc : ((([] : List ℚ) ++ [v + s.calibracion]).length : ℤ) > s.ventana := by
        simp only [List.nil_append, List.length_singleton]
        omega
      rw [if_pos hc]
      rfl
    have hv2 : (s.leer v).ventana ≤ 0 := by rw [Sensor.leer_ventana]; exact hv
    simpa [Sensor.leerTodos] using ih (s.leer v) hv2 hb2

/-- Operation `leer` on a boxed sensor updates exactly the base `Sensor` state. -/
theorem SensorBox.leer_toSensor (sb : SensorBox) (v : ℚ) :
    (sb.leer v).toSensor = sb.toSensor.leer v := by
  cases sb <;> rfl

/-- Folding `leer` over a boxed sensor folds it over the base `Sensor`. -/
theorem SensorBox.leerTodos_toSensor (vs : List ℚ) (sb : SensorBox) :
    (sb.leerTodos vs).toSensor = sb.toSensor.leerTodos vs := by
  induction vs generalizing sb with
  | nil => rfl
  | cons v vs ih =>
    show ((sb.leer v).leerTodos vs).toSensor = _
    rw [ih (sb.leer v), SensorBox.leer_toSensor]
    rfl

/-- On an empty buffer the polymorphic alert predicate of every variant is
its threshold comparison against the sentinel average 0. -/
theorem en_alerta_of_buffer_empty (sb : SensorBox) (h : sb.toSensor.buffer = []) :
    sb.en_alerta = alertaConPromedioCero sb := by
  cases sb with
  | temperatura s =>
    simp only [SensorBox.toSensor] at h
    simp [SensorBox.en_alerta, alertaConPromedioCero, SensorTemperatura.en_alerta,
      Sensor.promedio, h]
  | vibracion s =>
    simp only [SensorBox.toSensor] at h
    simp [SensorBox.en_alerta, alertaConPromedioCero, SensorVibracion.en_alerta,
      Sensor.promedio, h]
  | sismo s =>
    simp only [SensorBox.toSensor] at h
    simp [SensorBox.en_alerta, alertaConPromedioCero, SensorSismo.en_alerta,
      Sensor.promedio, h]
  | volcan s =>
    simp only [SensorBox.toSensor] at h
    simp [SensorBox.en_alerta, alertaConPromedioCero, SensorVolcan.en_alerta,
      Sensor.promedio, h]

/-- C10: with a non-positive window size every `leer` call completes and
leaves the buffer empty, so the average stays 0 and each variant of
`en_alerta` is just its thresholds compared against 0. -/
theorem claim_C10_ventana_no_positiva (sb : SensorBox) (vs : List ℚ)
    (hv : sb.toSensor.ventana ≤ 0) (hb : sb.toSensor.buffer = []) :
    (sb.leerTodos vs).toSensor.buffer = [] ∧
    (sb.leerTodos vs).promedio = 0 ∧
    (sb.leerTodos vs).en_alerta = alertaConPromedioCero (sb.leerTodos vs) := by
  have hbuf : (sb.leerTodos vs).toSensor.buffer = [] := by
    rw [SensorBox.leerTodos_toSensor]
    exact Sensor.leerTodos_buffer_empty_nonpos vs sb.toSensor hv hb
  refine ⟨hbuf, ?_, en_alerta_of_buffer_empty _ hbuf⟩
  simp [SensorBox.promedio, Sensor.promedio, hbuf]

/-- C10 witness: window 0, two readings, buffer still empty. -/
theorem claim_C10_ventana_no_positiva_witness :
    ((SensorBox.temperatura ⟨⟨"z", 0, 0, []⟩, 80⟩).leerTodos [5, 7]).toSensor.buffer = [] :=
  (claim_C10_ventana_no_positiva (SensorBox.temperatura ⟨⟨"z", 0, 0, []⟩, 80⟩) [5, 7]
    (by norm_num [SensorBox.toSensor]) rfl).1

/-- The inner fan-out loop sends the one message to every channel in order. -/
theorem enviarATodos_eq_map (ns : List Notificador) (msg : String) :
    enviarATodos ns msg = ns.map fun n => ⟨n, msg⟩ := by
  induction ns with
  | nil => rfl
  | cons n ns ih => simp [enviarATodos, ih]

/-- The evaluation loop is the channel fan-out of exactly the alerting
sensors, kept in sensor order. -/
theorem evaluarLoop_eq_filter (ss : List SensorBox) (ns : List Notificador) :
    evaluarLoop ss ns =
      (ss.filter SensorBox.en_alerta).flatMap
        fun s => ns.map fun n => ⟨n, mensajeAlerta s⟩ := by
  induction ss with
  | nil => rfl
  | cons s ss ih =>
    cases hs : s.en_alerta with
    | false => simp [evaluarLoop, hs, List.filter_cons, ih]
    | true => simp [evaluarLoop, hs, List.filter_cons, ih, enviarATodos_eq_map]

/-- The evaluation loop performs (alerting sensors) times (channels) sends. -/
theorem evaluarLoop_length (ss : List SensorBox) (ns : List Notificador) :
    (evaluarLoop ss ns).length =
      (ss.filter SensorBox.en_alerta).length * ns.length := by
  rw [evaluarLoop_eq_filter]
  generalize ss.filter SensorBox.en_alerta = l
  induction l with
  | nil => simp
  | cons s l ih =>
    simp [ih]
    ring

/-- C3: `evaluar_y_notificar` visits sensors in registration order, delivers
the formatted alert message of each alerting sensor to every channel in
registration order and nothing for the others, and with 2 alerting sensors
and 2 channels produces exactly these 4 sends in sensor-then-channel
order. -/
theorem claim_C3_fanout (g : GestorAlertas) :
    (g.evaluar_y_notificar =
      (g.sensores.filter SensorBox.en_alerta).flatMap
        fun s => g.notificadores.map fun n => ⟨n, mensajeAlerta s⟩) ∧
    g.evaluar_y_notificar.length =
      (g.sensores.filter SensorBox.en_alerta).length * g.notificadores.length ∧
    (GestorAlertas.mk
        [SensorBox.temperatura ⟨⟨"s1", 5, 0, [100]⟩, 80⟩,
         SensorBox.sismo ⟨⟨"s2", 5, 0, [6]⟩, 5⟩]
        [Notificador.email "a@b.c", Notificador.sms "555"]).evaluar_y_notificar =
      [⟨Notificador.email "a@b.c", "ALERTA: Sensor s1 en umbral (avg=100.00)"⟩,
       ⟨Notificador.sms "555", "ALERTA: Sensor s1 en umbral (avg=100.00)"⟩,
       ⟨Notificador.email "a@b.c", "ALERTA: Sensor s2 en umbral (avg=6.00)"⟩,
       ⟨Notificador.sms "555", "ALERTA: Sensor s2 en umbral (avg=6.00)"⟩] := by
  refine ⟨evaluarLoop_eq_filter g.sensores g.notificadores,
    evaluarLoop_length g.sensores g.notificadores, ?_⟩
  have hs1 : (SensorBox.temperatura ⟨⟨"s1", 5, 0, [100]⟩, 80⟩).en_alerta = true := by
    norm_num [SensorBox.en_alerta, SensorTemperatura.en_alerta, SensorBox.toSensor,
      Sensor.promedio]
  have hs2 : (SensorBox.sismo ⟨⟨"s2", 5, 0, [6]⟩, 5⟩).en_alerta = true := by
    norm_num [SensorBox.en_alerta, SensorSismo.en_alerta, SensorBox.toSensor,
      Sensor.promedio]
  have hm1 : mensajeAlerta (SensorBox.temperatura ⟨⟨"s1", 5, 0, [100]⟩, 80⟩) =
      "ALERTA: Sensor s1 en umbral (avg=100.00)" := by
    have hp : (SensorBox.temperatura ⟨⟨"s1", 5, 0, [100]⟩, 80⟩).promedio = 100 := by
      norm_num [SensorBox.promedio, SensorBox.toSensor, Sensor.promedio]
    rw [mensajeAlerta, hp]
    norm_num [fmt2, roundHalfEven, SensorBox.id, SensorBox.toSensor]
    decide
  have hm2 : mensajeAlerta (SensorBox.sismo ⟨⟨"s2", 5, 0, [6]⟩, 5⟩) =
      "ALERTA: Sensor s2 en umbral (avg=6.00)" := by
    have hp : (SensorBox.sismo ⟨⟨"s2", 5, 0, [6]⟩, 5⟩).promedio = 6 := by
      norm_num [SensorBox.promedio, SensorBox.toSensor, Sensor.promedio]
    rw [mensajeAlerta, hp]
    norm_num [fmt2, roundHalfEven, SensorBox.id, SensorBox.toSensor]
    decide
  simp [GestorAlertas.evaluar_y_notificar, evaluarLoop, enviarATodos, hs1, hs2, hm1, hm2]

/-- C3 witness: the 2-sensor, 2-channel trace has exactly 4 sends. -/
theorem claim_C3_fanout_witness :
    (GestorAlertas.mk
        [SensorBox.temperatura ⟨⟨"s1", 5, 0, [100]⟩, 80⟩,
         SensorBox.sismo ⟨⟨"s2", 5, 0, [6]⟩, 5⟩]
        [Notificador.email "a@b.c", Notificador.sms "555"]).evaluar_y_notificar.length = 4 := by
  have h := (claim_C3_fanout (GestorAlertas.mk
    [SensorBox.temperatura ⟨⟨"s1", 5, 0, [100]⟩, 80⟩,
     SensorBox.sismo ⟨⟨"s2", 5, 0, [6]⟩, 5⟩]
    [Notificador.email "a@b.c", Notificador.sms "555"])).2.2
  rw [h]
  rfl

/-- The panel loop sends one status message per alerting indicator, in
order, always through the one given channel, with `estado` always the
string ALERTA on the messages actually sent. -/
theorem actualizarLoop_eq_filter (canal : Notificador) (l : List SensorBox) :
    actualizarLoop canal l =
      (l.filter SensorBox.en_alerta).map
        fun s => ⟨canal, "ALERTA: " ++ s.id ++ " en estado " ++ "ALERTA"⟩ := by
  induction l with
  | nil => rfl
  | cons s l ih =>
    cases hs : s.en_alerta with
    | false => simp [actualizarLoop, hs, List.filter_cons, ih]
    | true => simp [actualizarLoop, hs, List.filter_cons, ih]

/-- C5: `actualizar_panel` sends exactly one "ALERTA: {id} en estado ALERTA"
message per alerting indicator, every send goes through the own channel of
the panel, and no channel of the attached `GestorAlertas` other than that
one ever receives one of these sends. -/
theorem claim_C5_panel (p : PanelEmergencias) :
    p.actualizar_panel =
      (p.indicadores.filter SensorBox.en_alerta).map
        (fun s => ⟨p.notificador, "ALERTA: " ++ s.id ++ " en estado ALERTA"⟩) ∧
    (∀ e ∈ p.actualizar_panel, e.canal = p.notificador) ∧
    (∀ n ∈ p.gestor.notificadores, n ≠ p.notificador →
      ∀ e ∈ p.actualizar_panel, e.canal ≠ n) := by
  have h1 : p.actualizar_panel =
      (p.indicadores.filter SensorBox.en_alerta).map
        fun s => Envio.mk p.notificador ("ALERTA: " ++ s.id ++ " en estado ALERTA") := by
    rw [PanelEmergencias.actualizar_panel, actualizarLoop_eq_filter]
    refine List.map_congr_left fun s _ => ?_
    rw [String.append_assoc]
    rfl
  have h2 : ∀ e ∈ p.actualizar_panel, e.canal = p.notificador := by
    intro e he
    rw [h1] at he
    obtain ⟨s, _, rfl⟩ := List.mem_map.1 he
    rfl
  refine ⟨h1, h2, ?_⟩
  intro n _ hne e he heq
  exact hne (heq.symm.trans (h2 e he))

/-- C5 witness: one alerting indicator, a panel channel, and a distinct
gestor channel: the trace is the single send through the panel channel. -/
theorem claim_C5_panel_witness :
    (PanelEmergencias.mk ⟨[], [Notificador.webhook "u"]⟩ (Notificador.email "p")
        [SensorBox.temperatura ⟨⟨"t", 5, 0, [100]⟩, 80⟩]).actualizar_panel =
      [⟨Notificador.email "p", "ALERTA: t en estado ALERTA"⟩] := by
  have h := (claim_C5_panel (PanelEmergencias.mk ⟨[], [Notificador.webhook "u"]⟩
    (Notificador.email "p") [SensorBox.temperatura ⟨⟨"t", 5, 0, [100]⟩, 80⟩])).1
  rw [h]
  have hs : (SensorBox.temperatura ⟨⟨"t", 5, 0, [100]⟩, 80⟩).en_alerta = true := by
    norm_num [SensorBox.en_alerta, SensorTemperatura.en_alerta, SensorBox.toSensor,
      Sensor.promedio]
  simp [List.filter_cons, hs, SensorBox.id, SensorBox.toSensor]

end Sensores

